import Mathlib

/-!
# pkg/bridge/bridge.go: bridge creation, veth attachment, teardown and check

The four exported functions of `bridge.go` (`CreateBridge`, `SetupVeth`,
`DelVeth`, `CheckVeth`) are sequences of calls into three libraries that are
not part of the repository: `vishvananda/netlink`, the `ip` and `ns` packages
of `containernetworking/plugins`, and the Go standard library.

* The functions themselves are embedded as state-passing functions over an
  arbitrary link layer `LinkLayer σ` (the library calls are its fields).  Every
  run also returns the list of library calls it made, with their results.
* `Kernel` is a small executable reference model of the Linux link layer as
  seen through those libraries.  It is used to evaluate the functions on
  concrete hosts and for the properties that speak about devices, addresses and
  routes rather than about calls.
-/

namespace Bridge

/-! ## Go values -/

/-- Value of type `net.IP`: a byte slice (4 bytes, 16 bytes, or empty for nil). -/
structure IP where
  bytes : List Nat
  deriving DecidableEq, Repr

/-- The 12-byte prefix of an IPv4 address in 16-byte form (`v4InV6Prefix`). -/
def v4InV6Prefix : List Nat := [0, 0, 0, 0, 0, 0, 0, 0, 0, 0, 255, 255]

/-- Method `net.IP.To4`: the 4-byte form of an IPv4 address, `none` (nil) otherwise. -/
def IP.To4 (ip : IP) : Option IP :=
  if ip.bytes.length = 4 then some ip
  else if ip.bytes.length = 16 ∧ ip.bytes.take 12 = v4InV6Prefix then some ⟨ip.bytes.drop 12⟩
  else none

/-- Method `net.IP.Equal`: same address, an IPv4 address and its 16-byte form being equal. -/
def IP.Equal (ip x : IP) : Bool :=
  if ip.bytes.length = x.bytes.length then decide (ip.bytes = x.bytes)
  else if ip.bytes.length = 4 ∧ x.bytes.length = 16 then
    decide (x.bytes.take 12 = v4InV6Prefix) && decide (ip.bytes = x.bytes.drop 12)
  else if ip.bytes.length = 16 ∧ x.bytes.length = 4 then
    decide (ip.bytes.take 12 = v4InV6Prefix) && decide (ip.bytes.drop 12 = x.bytes)
  else false

/-- The address `0.0.0.0` (`net.IPv4zero`). -/
def IPv4zero : IP := ⟨[0, 0, 0, 0]⟩

/-- The address `::` (`net.IPv6unspecified`). -/
def IPv6unspecified : IP := ⟨[0, 0, 0, 0, 0, 0, 0, 0, 0, 0, 0, 0, 0, 0, 0, 0]⟩

/-- Leading one bits of a mask byte whose other bits are zero; `none` for any other byte. -/
def byteOnes (v : Nat) : Option Nat :=
  if v = 0 then some 0 else if v = 128 then some 1 else if v = 192 then some 2
  else if v = 224 then some 3 else if v = 240 then some 4 else if v = 248 then some 5
  else if v = 252 then some 6 else if v = 254 then some 7 else none

/-- Go `simpleMaskLength`: the number of leading one bits of a mask made of ones followed by
zeros, `none` (the -1 of Go) for any other mask. -/
def simpleMaskLength : List Nat → Option Nat
  | [] => some 0
  | v :: rest =>
    if v = 255 then (simpleMaskLength rest).map (· + 8)
    else if rest.all (fun b => decide (b = 0)) then byteOnes v else none

/-- First result of the method `net.IPMask.Size`: the prefix length, 0 when the mask is not
ones followed by zeros. -/
def maskOnes (mask : IP) : Nat :=
  (simpleMaskLength mask.bytes).getD 0

/-- Value of type `net.IPNet`: address and mask. -/
structure IPNet where
  ip : IP
  mask : IP
  deriving DecidableEq, Repr

/-- Value of type `netlink.Addr`, reduced to its embedded `*net.IPNet`. -/
structure Addr where
  ipNet : IPNet
  deriving DecidableEq, Repr

/-- Address family argument of `netlink.AddrList`. -/
inductive Family where
  | FAMILY_ALL
  | FAMILY_V4
  | FAMILY_V6
  deriving DecidableEq, Repr

/-- Handle on a network namespace (`ns.NetNS`). -/
abbrev NetNS := Nat

/-- Link types the package meets. -/
inductive LinkKind where
  | bridge
  | veth
  | device
  deriving DecidableEq, Repr

/-- Non-nil `netlink.Link`: the link type and the `LinkAttrs` fields the package and the
link layer use (`Index`, `Name`, `MTU`, `TxQLen`, `MasterIndex`, and the up flag). -/
structure Link where
  kind : LinkKind
  index : Nat
  name : String
  mtu : Int
  txQLen : Int
  masterIndex : Nat
  up : Bool
  deriving DecidableEq, Repr

/-- Value of type `net.Interface` / `current.Interface`, as returned by `ip.SetupVeth`. -/
structure Interface where
  name : String
  deriving DecidableEq, Repr

/-- Error values made outside `bridge.go` (by the kernel, netlink, the `ip` and `ns`
packages or the `os` package). -/
inductive ExtError where
  /-- A `syscall.Errno`. -/
  | errno (code : Nat)
  /-- A `netlink.LinkNotFoundError`, what `netlink.LinkByName` returns for a missing link. -/
  | linkNotFound (msg : String)
  /-- An `*os.PathError` wrapping a `syscall.Errno`. -/
  | pathError (op : String) (path : String) (code : Nat)
  /-- Any other error value, identified by its text. -/
  | other (msg : String)
  deriving DecidableEq, Repr

/-- Errno `ENOENT`. -/
def ENOENT : ExtError := .errno 2

/-- Errno `EEXIST` (`syscall.EEXIST`). -/
def EEXIST : ExtError := .errno 17

/-- Errno `ENODEV`. -/
def ENODEV : ExtError := .errno 19

/-- Errno `EINVAL`. -/
def EINVAL : ExtError := .errno 22

/-- Errno `ERANGE`. -/
def ERANGE : ExtError := .errno 34

/-- Errno `EOPNOTSUPP`. -/
def EOPNOTSUPP : ExtError := .errno 95

/-- Errno `EADDRNOTAVAIL`. -/
def EADDRNOTAVAIL : ExtError := .errno 99

/-- Errno `ENETDOWN`. -/
def ENETDOWN : ExtError := .errno 100

/-- Errno `ENETUNREACH`. -/
def ENETUNREACH : ExtError := .errno 101

/-- Errno `EHOSTUNREACH`. -/
def EHOSTUNREACH : ExtError := .errno 113

/-- Go standard library `os.IsNotExist(err)`: it unwraps the wrapper types of the `os`
package (`*PathError`, `*LinkError`, `*SyscallError`) and then accepts `os.ErrNotExist` and
the errno `ENOENT` only.  It does not use `errors.Is`, so no error type of another package
satisfies it; it is false of nil. -/
def osIsNotExist : Option ExtError → Bool
  | some (.errno c) => decide (ExtError.errno c = ENOENT)
  | some (.pathError _ _ c) => decide (ExtError.errno c = ENOENT)
  | _ => false

/-- Argument of an `fmt.Errorf` call in `bridge.go`. -/
inductive FmtArg where
  | str (s : String)
  | ip (a : IP)
  | err (e : ExtError)
  deriving DecidableEq, Repr

/-- Go `error` as returned by the functions of `bridge.go`: either an error value made
outside the package and passed on as it is, or a value made by `fmt.Errorf` in `bridge.go`,
kept as its format string and arguments.  `fmt.Errorf` allocates the value it returns, so
such a value is equal to no error value made elsewhere. -/
inductive GoError where
  | ext (e : ExtError)
  | errorf (format : String) (args : List FmtArg)
  deriving DecidableEq, Repr

/-- Result `error` of a function that passes a library error on unchanged. -/
def bare : Option ExtError → Option GoError
  | none => none
  | some e => some (.ext e)

/-! ## The link layer -/

/-- The library calls `bridge.go` makes.  Every call runs in an ambient network namespace,
the first `NetNS` argument.  Lookups and listings read the state; the other calls return
the new state.  A `netlink.Link` argument can be nil (`none`). -/
structure LinkLayer (σ : Type) where
  /-- Failure of `netns.Do` itself, before the closure runs (nil when the namespace is entered). -/
  nsEnter : σ → NetNS → Option ExtError
  /-- Call `netlink.LinkByName(name)`. -/
  LinkByName : σ → NetNS → String → Option Link × Option ExtError
  /-- Call `netlink.AddrList(link, family)`. -/
  AddrList : σ → NetNS → Option Link → Family → List Addr × Option ExtError
  /-- Call `netlink.LinkAdd(link)`. -/
  LinkAdd : σ → NetNS → Link → Option ExtError × σ
  /-- Call `netlink.AddrAdd(link, addr)`. -/
  AddrAdd : σ → NetNS → Option Link → Addr → Option ExtError × σ
  /-- Call `netlink.LinkSetUp(link)`. -/
  LinkSetUp : σ → NetNS → Option Link → Option ExtError × σ
  /-- Call `netlink.LinkDel(link)`. -/
  LinkDel : σ → NetNS → Option Link → Option ExtError × σ
  /-- Call `netlink.LinkSetMaster(link, master)`. -/
  LinkSetMaster : σ → NetNS → Link → Link → Option ExtError × σ
  /-- Call `ip.SetupVeth(contVethName, mtu, contVethMac, hostNS)`; returns the host-side and
  the container-side interface. -/
  ipSetupVeth : σ → NetNS → String → Int → String → NetNS → (Interface × Interface × Option ExtError) × σ
  /-- Call `ip.AddDefaultRoute(gw, dev)`. -/
  ipAddDefaultRoute : σ → NetNS → IP → Option Link → Option ExtError × σ

/-- One library call with its arguments and its result. -/
inductive Event where
  | nsDo (ns : NetNS) (err : Option ExtError)
  | linkByName (ns : NetNS) (name : String) (link : Option Link) (err : Option ExtError)
  | addrList (ns : NetNS) (link : Option Link) (family : Family) (addrs : List Addr)
      (err : Option ExtError)
  | linkAdd (ns : NetNS) (link : Link) (err : Option ExtError)
  | addrAdd (ns : NetNS) (link : Option Link) (addr : Addr) (err : Option ExtError)
  | linkSetUp (ns : NetNS) (link : Option Link) (err : Option ExtError)
  | linkDel (ns : NetNS) (link : Option Link) (err : Option ExtError)
  | linkSetMaster (ns : NetNS) (link : Link) (master : Link) (err : Option ExtError)
  | setupVeth (ns : NetNS) (ifName : String) (mtu : Int) (mac : String) (hostNS : NetNS)
      (hostVeth : Interface) (containerVeth : Interface) (err : Option ExtError)
  | addDefaultRoute (ns : NetNS) (gw : IP) (link : Option Link) (err : Option ExtError)
  deriving DecidableEq, Repr

/-- Which library function an event is a call of. -/
inductive Op where
  | nsDo | linkByName | addrList | linkAdd | addrAdd | linkSetUp | linkDel
  | linkSetMaster | setupVeth | addDefaultRoute
  deriving DecidableEq, Repr

/-- The library function called. -/
def Event.op : Event → Op
  | .nsDo .. => .nsDo
  | .linkByName .. => .linkByName
  | .addrList .. => .addrList
  | .linkAdd .. => .linkAdd
  | .addrAdd .. => .addrAdd
  | .linkSetUp .. => .linkSetUp
  | .linkDel .. => .linkDel
  | .linkSetMaster .. => .linkSetMaster
  | .setupVeth .. => .setupVeth
  | .addDefaultRoute .. => .addDefaultRoute

/-- The `error` result of the call. -/
def Event.err : Event → Option ExtError
  | .nsDo _ e => e
  | .linkByName _ _ _ e => e
  | .addrList _ _ _ _ e => e
  | .linkAdd _ _ e => e
  | .addrAdd _ _ _ e => e
  | .linkSetUp _ _ e => e
  | .linkDel _ _ e => e
  | .linkSetMaster _ _ _ e => e
  | .setupVeth _ _ _ _ _ _ _ e => e
  | .addDefaultRoute _ _ _ e => e

/-- Calls that change nothing: entering a namespace for the time of a closure, a lookup,
a listing. -/
def Op.readOnly : Op → Bool
  | .nsDo => true
  | .linkByName => true
  | .addrList => true
  | _ => false

/-- Outcome of running a function of `bridge.go`: its return value, the link-layer state
it leaves, and the library calls it made, in order. -/
structure Run (σ : Type) (α : Type) where
  ret : α
  state : σ
  trace : List Event

/-! ## Reference model of the link layer -/

/-- A network device of the host: the namespace it lives in, its link attributes, the index
of the other end when it is one end of a veth pair (0 otherwise), and its addresses. -/
structure Device where
  ns : NetNS
  link : Link
  peer : Nat
  addrs : List Addr
  deriving DecidableEq, Repr

/-- A default route of a namespace: gateway and outgoing device index.  The route is the
IPv4 one (`0.0.0.0/0`) when the gateway is an IPv4 address, the IPv6 one (`::/0`)
otherwise. -/
structure Route where
  ns : NetNS
  gw : IP
  dev : Nat
  deriving DecidableEq, Repr

/-- State of the link layer of one host.  `vethNames` are the names `ip.SetupVeth` will draw
for host-side veth ends (it draws them at random); `faults` are outcomes forced on the
coming state-changing calls, in order, for failures whose cause is outside the model
(permissions, resource limits): `some e` makes the call fail with `e` and change nothing,
`none` lets it run. -/
structure Kernel where
  namespaces : List NetNS
  devices : List Device
  routes : List Route
  vethNames : List String
  faults : List (Option ExtError)
  deriving DecidableEq, Repr

/-- The device with one more address. -/
def Device.addAddr (a : Addr) (d : Device) : Device :=
  { d with addrs := d.addrs ++ [a] }

/-- The device set administratively up. -/
def Device.setUp (d : Device) : Device :=
  { d with link := { d.link with up := true } }

/-- The device enslaved to the master with index `m`. -/
def Device.setMaster (m : Nat) (d : Device) : Device :=
  { d with link := { d.link with masterIndex := m } }

/-- Apply `f` to the device when it is the one with index `i` in namespace `ns`. -/
def Device.ifAt (ns : NetNS) (i : Nat) (f : Device → Device) (d : Device) : Device :=
  if d.ns = ns ∧ d.link.index = i then f d else d

namespace Kernel

/-- Error of a call that is handed a nil link. -/
def nilLink : ExtError := .other "nil link"

/-- The device called `name` in namespace `ns`. -/
def byName (k : Kernel) (ns : NetNS) (name : String) : Option Device :=
  k.devices.find? fun d => decide (d.ns = ns ∧ d.link.name = name)

/-- The device with index `i` in namespace `ns`. -/
def byIndex (k : Kernel) (ns : NetNS) (i : Nat) : Option Device :=
  k.devices.find? fun d => decide (d.ns = ns ∧ d.link.index = i)

/-- An index above every index in use. -/
def freshIndex (k : Kernel) : Nat :=
  (k.devices.map fun d => d.link.index).foldr max 0 + 1

/-- Change the device with index `i` in namespace `ns`. -/
def modify (k : Kernel) (ns : NetNS) (i : Nat) (f : Device → Device) : Kernel :=
  { k with devices := k.devices.map (Device.ifAt ns i f) }

/-- Error for an interface name that cannot be created, nil for a name that can.  netlink
refuses the empty name; the kernel refuses a name of 16 bytes or more with `ERANGE`, and
with `EINVAL` the names `.` and `..` and a name with a slash, a colon or white space. -/
def nameError (name : String) : Option ExtError :=
  if name = "" then some (.other "LinkAttrs.Name cannot be empty")
  else if 16 ≤ name.utf8ByteSize then some ERANGE
  else if name = "." ∨ name = ".." ∨
      name.data.any (fun c => decide (c.toNat ∈ [47, 58, 32, 9, 10, 11, 12, 13])) then
    some EINVAL
  else none

/-- MTU of a new bridge or veth device asked for with `LinkAttrs.MTU = mtu`; `none` when
the kernel refuses it.  netlink passes the MTU on, as a 32-bit number, only when it is
positive, and the device gets 1500 otherwise; the kernel accepts 68 to 65535. -/
def newMTU (mtu : Int) : Option Int :=
  if mtu ≤ 0 then some 1500
  else if 68 ≤ mtu % 4294967296 ∧ mtu % 4294967296 ≤ 65535 then some (mtu % 4294967296)
  else none

/-- Queue length of a new bridge asked for with `LinkAttrs.TxQLen = q`: netlink passes it on
only when it is not negative, and the device gets 1000 otherwise. -/
def newTxQLen (q : Int) : Int :=
  if 0 ≤ q then q else 1000

/-- The number whose base-256 digits are the bytes. -/
def toNum (bytes : List Nat) : Nat :=
  bytes.foldl (fun acc b => acc * 256 + b) 0

/-- Do two addresses of the same length agree on their first `ones` bits. -/
def sameNet (a g : List Nat) (ones : Nat) : Bool :=
  decide (a.length = g.length ∧
    toNum a / 2 ^ (8 * a.length - ones) = toNum g / 2 ^ (8 * a.length - ones))

/-- Is the gateway on the subnet of an address of the device: both IPv4, or both IPv6. -/
def onLink (a : Addr) (gw : IP) : Bool :=
  match a.ipNet.ip.To4, gw.To4 with
  | some a4, some g4 => sameNet a4.bytes g4.bytes (maskOnes a.ipNet.mask)
  | none, none => sameNet a.ipNet.ip.bytes gw.bytes (maskOnes a.ipNet.mask)
  | _, _ => false

/-- Is the IPv6 address link-local (`fe80::/10`). -/
def linkLocal6 (gw : IP) : Bool :=
  decide (gw.bytes.length = 16 ∧ gw.bytes.head? = some 254 ∧
    (gw.bytes.drop 1).head?.map (· / 64) = some 2)

/-- Error of a gateway that a new route through device `d` cannot use, nil for one it can.
No gateway (nil) is always possible.  An IPv4 gateway must be on the subnet of an IPv4
address of the device (`ENETUNREACH` otherwise); an IPv6 gateway must be link-local or on
the subnet of an IPv6 address of the device (`EHOSTUNREACH` otherwise). -/
def gatewayError (d : Device) (gw : IP) : Option ExtError :=
  if gw.bytes = [] then none
  else if gw.To4.isSome then
    if d.addrs.any (fun a => onLink a gw) then none else some ENETUNREACH
  else if gw.bytes.length ≠ 16 then some EINVAL
  else if linkLocal6 gw ∨ d.addrs.any (fun a => onLink a gw) then none
  else some EHOSTUNREACH

/-- Take the forced outcome of the next state-changing call. -/
def pop (k : Kernel) : Option ExtError × Kernel :=
  match k.faults with
  | [] => (none, k)
  | f :: fs => (f, { k with faults := fs })

/-- Is the address in the family asked for. -/
def inFamily (fam : Family) (a : Addr) : Bool :=
  match fam with
  | .FAMILY_ALL => true
  | .FAMILY_V4 => a.ipNet.ip.To4.isSome
  | .FAMILY_V6 => a.ipNet.ip.To4.isNone

/-- Same address and mask. -/
def sameAddr (a b : Addr) : Bool :=
  a.ipNet.ip.Equal b.ipNet.ip && decide (a.ipNet.mask = b.ipNet.mask)

/-- Entering a namespace works when the namespace is open. -/
def nsEnter (k : Kernel) (ns : NetNS) : Option ExtError :=
  if ns ∈ k.namespaces then none else some (.other "namespace closed")

/-- Lookup by name.  For a missing link the kernel answers `ENODEV`, which
`netlink.LinkByName` hands out as a `LinkNotFoundError`. -/
def LinkByName (k : Kernel) (ns : NetNS) (name : String) : Option Link × Option ExtError :=
  match k.byName ns name with
  | some d => (some d.link, none)
  | none => (none, some (.linkNotFound "Link not found"))

/-- Addresses of a device; `FAMILY_V4` lists its IPv4 addresses only. -/
def AddrList (k : Kernel) (ns : NetNS) (l : Option Link) (fam : Family) :
    List Addr × Option ExtError :=
  match l with
  | none => ([], some nilLink)
  | some l =>
    match k.byIndex ns l.index with
    | none => ([], some ENODEV)
    | some d => (d.addrs.filter (inFamily fam), none)

/-- New device, with a new index, the MTU and the queue length the kernel gives it.  In
this order: a name that cannot be sent is refused, `EEXIST` when the name is taken in the
namespace, then a name or an MTU the kernel does not accept is refused with `EINVAL`. -/
def LinkAdd (k : Kernel) (ns : NetNS) (l : Link) : Option ExtError × Kernel :=
  match k.pop with
  | (some e, k1) => (some e, k1)
  | (none, k1) =>
    if l.name = "" ∨ 16 ≤ l.name.utf8ByteSize then (nameError l.name, k1)
    else if (k1.byName ns l.name).isSome then (some EEXIST, k1)
    else
      match nameError l.name, newMTU l.mtu with
      | some e, _ => (some e, k1)
      | none, none => (some EINVAL, k1)
      | none, some mtu =>
        (none, { k1 with devices := k1.devices ++
          [{ ns := ns, peer := 0, addrs := [],
             link := { l with index := k1.freshIndex, mtu := mtu,
                              txQLen := newTxQLen l.txQLen } }] })

/-- New address on a device.  An address is IPv4 when `To4` is not nil, IPv6 otherwise.
For the IPv4 address `0.0.0.0` the kernel drops the request and answers success: nothing
is assigned.  The kernel refuses an IPv4 prefix longer than 32 bits, an IPv6 address that
is not 16 bytes long, and the IPv6 address `::`.  `netlink.AddrAdd` asks for an exclusive
creation, so the kernel answers `EEXIST` when the device has that address already. -/
def AddrAdd (k : Kernel) (ns : NetNS) (l : Option Link) (a : Addr) : Option ExtError × Kernel :=
  match k.pop with
  | (some e, k1) => (some e, k1)
  | (none, k1) =>
    match l with
    | none => (some nilLink, k1)
    | some l =>
      match k1.byIndex ns l.index with
      | none => (some ENODEV, k1)
      | some d =>
        if a.ipNet.ip.To4.isSome ∧ 32 < maskOnes a.ipNet.mask then (some EINVAL, k1)
        else if a.ipNet.ip.Equal IPv4zero then (none, k1)
        else if a.ipNet.ip.To4.isNone ∧ a.ipNet.ip.bytes.length ≠ 16 then (some EINVAL, k1)
        else if a.ipNet.ip.Equal IPv6unspecified then (some EADDRNOTAVAIL, k1)
        else if d.addrs.any (sameAddr a) then (some EEXIST, k1)
        else (none, k1.modify ns l.index (Device.addAddr a))

/-- Set a device administratively up. -/
def LinkSetUp (k : Kernel) (ns : NetNS) (l : Option Link) : Option ExtError × Kernel :=
  match k.pop with
  | (some e, k1) => (some e, k1)
  | (none, k1) =>
    match l with
    | none => (some nilLink, k1)
    | some l =>
      match k1.byIndex ns l.index with
      | none => (some ENODEV, k1)
      | some _ => (none, k1.modify ns l.index Device.setUp)

/-- Delete a device, with the other end when it is a veth end, and the routes through them. -/
def LinkDel (k : Kernel) (ns : NetNS) (l : Option Link) : Option ExtError × Kernel :=
  match k.pop with
  | (some e, k1) => (some e, k1)
  | (none, k1) =>
    match l with
    | none => (some nilLink, k1)
    | some l =>
      match k1.byIndex ns l.index with
      | none => (some ENODEV, k1)
      | some d =>
        let gone : Nat → Bool := fun i => decide (i = d.link.index ∨ (d.peer ≠ 0 ∧ i = d.peer))
        (none, { k1 with devices := k1.devices.filter (fun x => !gone x.link.index),
                         routes := k1.routes.filter fun r => !gone r.dev })

/-- netlink `ensureIndex` on a caller-made handle: the index the handle stands for, its own
or, for a handle without index, the index of the device called by its name (0 when there
is none). -/
def ensureIndex (k : Kernel) (ns : NetNS) (l : Link) : Nat :=
  if l.index = 0 then
    match k.byName ns l.name with
    | some d => d.link.index
    | none => 0
  else l.index

/-- Enslave a device to a master device of the same namespace.  netlink refuses a master
handle that stands for no index; the kernel answers `ENODEV` when the device is missing,
`EINVAL` when no device has the index of the master, `EOPNOTSUPP` when that device is not
a bridge. -/
def LinkSetMaster (k : Kernel) (ns : NetNS) (l : Link) (master : Link) :
    Option ExtError × Kernel :=
  match k.pop with
  | (some e, k1) => (some e, k1)
  | (none, k1) =>
    if k1.ensureIndex ns master = 0 then (some (.other "Device does not exist"), k1)
    else
      match k1.byIndex ns l.index, k1.byIndex ns (k1.ensureIndex ns master) with
      | none, _ => (some ENODEV, k1)
      | some _, none => (some EINVAL, k1)
      | some _, some m =>
        if m.link.kind ≠ LinkKind.bridge then (some EOPNOTSUPP, k1)
        else (none, k1.modify ns l.index (Device.setMaster (k1.ensureIndex ns master)))

/-- The container end of a new veth pair: index `i`, not yet up, no address. -/
def vethCont (ns : NetNS) (ifName : String) (mtu : Int) (i : Nat) : Device :=
  { ns := ns, peer := i + 1, addrs := [],
    link := { kind := .veth, index := i, name := ifName, mtu := mtu, txQLen := 0,
              masterIndex := 0, up := false } }

/-- The host end of a new veth pair: index `i + 1`, up, no master, no address. -/
def vethHost (hostNS : NetNS) (name : String) (mtu : Int) (i : Nat) : Device :=
  { ns := hostNS, peer := i, addrs := [],
    link := { kind := .veth, index := i + 1, name := name, mtu := mtu, txQLen := 0,
              masterIndex := 0, up := true } }

/-- Veth pair: the container end `ifName` in the ambient namespace, the other end, set up
and under a drawn name, in `hostNS`.  Fails when `ifName` is taken in the namespace, when
the kernel does not accept the name or the MTU, and when the drawn name is taken. -/
def ipSetupVeth (k : Kernel) (ns : NetNS) (ifName : String) (mtu : Int) (_mac : String)
    (hostNS : NetNS) : (Interface × Interface × Option ExtError) × Kernel :=
  match k.pop with
  | (some e, k1) => ((⟨""⟩, ⟨""⟩, some e), k1)
  | (none, k1) =>
    if (k1.byName ns ifName).isSome then
      ((⟨""⟩, ⟨""⟩, some (.other "container veth name provided already exists")), k1)
    else
      match nameError ifName, newMTU mtu, k1.vethNames with
      | some _, _, _ => ((⟨""⟩, ⟨""⟩, some (.other "failed to make veth pair")), k1)
      | none, none, _ => ((⟨""⟩, ⟨""⟩, some (.other "failed to make veth pair")), k1)
      | none, some _, [] =>
        ((⟨""⟩, ⟨""⟩, some (.other "failed to find a unique veth name")), k1)
      | none, some m, n :: rest =>
        if (k1.byName hostNS n).isSome ∨ (hostNS = ns ∧ n = ifName) then
          ((⟨""⟩, ⟨""⟩, some (.other "failed to make veth pair")), k1)
        else
          ((⟨n⟩, ⟨ifName⟩, none),
            { k1 with
              devices := k1.devices ++
                [vethCont ns ifName m k1.freshIndex, vethHost hostNS n m k1.freshIndex],
              vethNames := rest })

/-- Default route through a device.  `ip.AddDefaultRoute` adds the route `0.0.0.0/0` for
an IPv4 gateway and the route `::/0` otherwise, with an exclusive creation.  The kernel
answers `ENETDOWN` when the device is down, refuses a gateway the device cannot reach
(`gatewayError`), and answers `EEXIST` when the namespace has a default route of that
family already. -/
def ipAddDefaultRoute (k : Kernel) (ns : NetNS) (gw : IP) (l : Option Link) :
    Option ExtError × Kernel :=
  match k.pop with
  | (some e, k1) => (some e, k1)
  | (none, k1) =>
    match l with
    | none => (some nilLink, k1)
    | some l =>
      match k1.byIndex ns l.index with
      | none => (some ENODEV, k1)
      | some d =>
        if d.link.up = false then (some ENETDOWN, k1)
        else if (gatewayError d gw).isSome then (gatewayError d gw, k1)
        else if k1.routes.any
            (fun r => decide (r.ns = ns ∧ r.gw.To4.isSome = gw.To4.isSome)) then
          (some EEXIST, k1)
        else (none, { k1 with routes := k1.routes ++ [{ ns := ns, gw := gw, dev := l.index }] })

/-- The reference model as a link layer. -/
def linkLayer : LinkLayer Kernel where
  nsEnter := nsEnter
  LinkByName := LinkByName
  AddrList := AddrList
  LinkAdd := LinkAdd
  AddrAdd := AddrAdd
  LinkSetUp := LinkSetUp
  LinkDel := LinkDel
  LinkSetMaster := LinkSetMaster
  ipSetupVeth := ipSetupVeth
  ipAddDefaultRoute := ipAddDefaultRoute

end Kernel

/-! ## bridge.go -/

section Code

variable {σ : Type}

/-- The `&netlink.Bridge{LinkAttrs{Name: bridge, MTU: mtu, TxQLen: -1}}` of `CreateBridge`. -/
def newBridge (bridge : String) (mtu : Int) : Link :=
  { kind := .bridge, index := 0, name := bridge, mtu := mtu, txQLen := -1,
    masterIndex := 0, up := false }

/-- Function `CreateBridge(bridge, mtu, gateway)` (bridge.go lines 15-46), called with
ambient namespace `cur`.  Returns the pair `(netlink.Link, error)`. -/
def CreateBridge (P : LinkLayer σ) (cur : NetNS) (s : σ) (bridge : String) (mtu : Int)
    (gateway : IPNet) : Run σ (Option Link × Option GoError) :=
  let r0 := P.LinkByName s cur bridge
  let e0 := Event.linkByName cur bridge r0.1 r0.2
  match r0.1 with
  | some l => ⟨(some l, none), s, [e0]⟩
  | none =>
    let br := newBridge bridge mtu
    let r1 := P.LinkAdd s cur br
    let e1 := Event.linkAdd cur br r1.1
    if r1.1 ≠ none ∧ r1.1 ≠ some EEXIST then
      ⟨(none, bare r1.1), r1.2, [e0, e1]⟩
    else
      let r2 := P.LinkByName r1.2 cur bridge
      let e2 := Event.linkByName cur bridge r2.1 r2.2
      if r2.2 ≠ none then
        ⟨(none, bare r2.2), r1.2, [e0, e1, e2]⟩
      else
        let r3 := P.AddrAdd r1.2 cur r2.1 ⟨gateway⟩
        let e3 := Event.addrAdd cur r2.1 ⟨gateway⟩ r3.1
        if r3.1 ≠ none then
          ⟨(none, bare r3.1), r3.2, [e0, e1, e2, e3]⟩
        else
          let r4 := P.LinkSetUp r3.2 cur r2.1
          let e4 := Event.linkSetUp cur r2.1 r4.1
          if r4.1 ≠ none then
            ⟨(none, bare r4.1), r4.2, [e0, e1, e2, e3, e4]⟩
          else
            ⟨(r2.1, none), r4.2, [e0, e1, e2, e3, e4]⟩

/-- Function `SetupVeth(netns, br, mtu, ifName, podIP, gateway)` (bridge.go lines 78-139),
called with ambient namespace `cur`; `br` is a non-nil link.  The closure passed to
`netns.Do` runs with ambient namespace `netns` and gets `cur` as `hostNS`; `netns.Do`
returns the error of the closure as it is. -/
def SetupVeth (P : LinkLayer σ) (cur : NetNS) (s : σ) (netns : NetNS) (br : Link) (mtu : Int)
    (ifName : String) (podIP : IPNet) (gateway : IP) : Run σ (Option GoError) :=
  match P.nsEnter s netns with
  | some err => ⟨some (.ext err), s, [.nsDo netns (some err)]⟩
  | none =>
    let e0 := Event.nsDo netns none
    match P.ipSetupVeth s netns ifName mtu "" cur with
    | ((hostVeth, containerVeth, some err), s1) =>
      ⟨some (.ext err), s1,
        [e0, .setupVeth netns ifName mtu "" cur hostVeth containerVeth (some err)]⟩
    | ((hostVeth, containerVeth, none), s1) =>
      let e1 := Event.setupVeth netns ifName mtu "" cur hostVeth containerVeth none
      let hostIfaceName := hostVeth.name
      match P.LinkByName s1 netns containerVeth.name with
      | (conLink, some err) =>
        ⟨some (.ext err), s1, [e0, e1, .linkByName netns containerVeth.name conLink (some err)]⟩
      | (conLink, none) =>
        let e2 := Event.linkByName netns containerVeth.name conLink none
        match P.AddrAdd s1 netns conLink ⟨podIP⟩ with
        | (some err, s3) =>
          ⟨some (.ext err), s3, [e0, e1, e2, .addrAdd netns conLink ⟨podIP⟩ (some err)]⟩
        | (none, s3) =>
          let e3 := Event.addrAdd netns conLink ⟨podIP⟩ none
          match P.LinkSetUp s3 netns conLink with
          | (some err, s4) =>
            ⟨some (.ext err), s4, [e0, e1, e2, e3, .linkSetUp netns conLink (some err)]⟩
          | (none, s4) =>
            let e4 := Event.linkSetUp netns conLink none
            match P.ipAddDefaultRoute s4 netns gateway conLink with
            | (some err, s5) =>
              ⟨some (.ext err), s5,
                [e0, e1, e2, e3, e4, .addDefaultRoute netns gateway conLink (some err)]⟩
            | (none, s5) =>
              let e5 := Event.addDefaultRoute netns gateway conLink none
              match P.LinkByName s5 cur hostIfaceName with
              | (hostVeth, some err) =>
                ⟨some (.errorf "failed to lookup %q: %v" [.str hostIfaceName, .err err]), s5,
                  [e0, e1, e2, e3, e4, e5, .linkByName cur hostIfaceName hostVeth (some err)]⟩
              | (none, none) =>
                ⟨some (.errorf "nil hostveth" []), s5,
                  [e0, e1, e2, e3, e4, e5, .linkByName cur hostIfaceName none none]⟩
              | (some hostVeth, none) =>
                let e6 := Event.linkByName cur hostIfaceName (some hostVeth) none
                match P.LinkSetMaster s5 cur hostVeth br with
                | (some err, s7) =>
                  ⟨some (.errorf "failed to connect %q to bridge %v: %v"
                      [.str hostVeth.name, .str br.name, .err err]), s7,
                    [e0, e1, e2, e3, e4, e5, e6, .linkSetMaster cur hostVeth br (some err)]⟩
                | (none, s7) =>
                  ⟨none, s7, [e0, e1, e2, e3, e4, e5, e6, .linkSetMaster cur hostVeth br none]⟩

/-- Function `DelVeth(netns, ifName)` (bridge.go lines 141-152). -/
def DelVeth (P : LinkLayer σ) (s : σ) (netns : NetNS) (ifName : String) :
    Run σ (Option GoError) :=
  let d := P.nsEnter s netns
  let e0 := Event.nsDo netns d
  if d ≠ none then ⟨bare d, s, [e0]⟩
  else
    let r1 := P.LinkByName s netns ifName
    let e1 := Event.linkByName netns ifName r1.1 r1.2
    if osIsNotExist r1.2 then ⟨none, s, [e0, e1]⟩
    else if r1.2 ≠ none then ⟨bare r1.2, s, [e0, e1]⟩
    else
      let r2 := P.LinkDel s netns r1.1
      ⟨bare r2.1, r2.2, [e0, e1, Event.linkDel netns r1.1 r2.1]⟩

/-- The loop of `CheckVeth`: is there an `addr` in `ips` with `addr.IP.Equal(ip)`. -/
def hasIP (ips : List Addr) (ip : IP) : Bool :=
  ips.any fun addr => addr.ipNet.ip.Equal ip

/-- Function `CheckVeth(netns, ifName, ip)` (bridge.go lines 154-174). -/
def CheckVeth (P : LinkLayer σ) (s : σ) (netns : NetNS) (ifName : String) (ip : IP) :
    Run σ (Option GoError) :=
  let d := P.nsEnter s netns
  let e0 := Event.nsDo netns d
  if d ≠ none then ⟨bare d, s, [e0]⟩
  else
    let r1 := P.LinkByName s netns ifName
    let e1 := Event.linkByName netns ifName r1.1 r1.2
    if r1.2 ≠ none then ⟨bare r1.2, s, [e0, e1]⟩
    else
      let r2 := P.AddrList s netns r1.1 .FAMILY_V4
      let e2 := Event.addrList netns r1.1 .FAMILY_V4 r2.1 r2.2
      if r2.2 ≠ none then ⟨bare r2.2, s, [e0, e1, e2]⟩
      else if hasIP r2.1 ip then ⟨none, s, [e0, e1, e2]⟩
      else
        ⟨some (.errorf "failed to find ip %s for %s" [.ip ip, .str ifName]), s, [e0, e1, e2]⟩

end Code


/-! ## Contracts of the link layer used by the properties -/

section Contracts

variable {σ : Type}

/-- Every device that a lookup by name finds in state `s` is found under the same name in
state `t`, with the same index (the link handle itself may differ, e.g. in its flags). -/
def KeepsLinks (P : LinkLayer σ) (s t : σ) : Prop :=
  ∀ ns name d, (P.LinkByName s ns name).1 = some d →
    ∃ d2, (P.LinkByName t ns name).1 = some d2 ∧ d2.index = d.index

/-- A successful `netlink.AddrAdd` removes or renumbers no device. -/
def AddrAddKeepsLinks (P : LinkLayer σ) : Prop :=
  ∀ s ns l a, (P.AddrAdd s ns l a).1 = none → KeepsLinks P s (P.AddrAdd s ns l a).2

/-- A successful `netlink.LinkSetUp` removes or renumbers no device. -/
def LinkSetUpKeepsLinks (P : LinkLayer σ) : Prop :=
  ∀ s ns l, (P.LinkSetUp s ns l).1 = none → KeepsLinks P s (P.LinkSetUp s ns l).2

/-- The calls of a complete run of `SetupVeth`, in the order of the specification: (1) enter
the namespace, (2) create the veth pair, (3) look up the container end, assign the address
and set it up, (4) add the default route, (6) look up the host end again, (8) set its
master.  The arguments are what the earlier calls returned. -/
def setupPlan (cur netns : NetNS) (br : Link) (mtu : Int) (ifName : String) (podIP : IPNet)
    (gateway : IP) (hostVeth containerVeth : Interface) (conLink hostRes : Option Link)
    (hostLink : Link) (e0 e1 e2 e3 e4 e5 e6 e7 : Option ExtError) : List Event :=
  [ Event.nsDo netns e0,
    Event.setupVeth netns ifName mtu "" cur hostVeth containerVeth e1,
    Event.linkByName netns containerVeth.name conLink e2,
    Event.addrAdd netns conLink ⟨podIP⟩ e3,
    Event.linkSetUp netns conLink e4,
    Event.addDefaultRoute netns gateway conLink e5,
    Event.linkByName cur hostVeth.name hostRes e6,
    Event.linkSetMaster cur hostLink br e7 ]

end Contracts

/-! ## Concurrent calls of CreateBridge -/

section Concurrent

variable {σ : Type}

/-- Where a running call of `CreateBridge` stands: the next library call it will make, with
the local variable `dev` once it is set, or the values it has returned. -/
inductive BridgeCall where
  /-- Before the first `LinkByName` (line 16). -/
  | start
  /-- Before `LinkAdd` (line 28). -/
  | create
  /-- Before the second `LinkByName` (line 32). -/
  | fetch
  /-- Before `AddrAdd` (line 37). -/
  | assign (dev : Option Link)
  /-- Before `LinkSetUp` (line 41). -/
  | setUp (dev : Option Link)
  /-- Returned. -/
  | done (ret : Option Link × Option GoError)
  deriving DecidableEq, Repr

/-- One library call of a running `CreateBridge(bridge, mtu, gateway)`: library calls are the
atomic steps of concurrent callers. -/
def BridgeCall.step (P : LinkLayer σ) (cur : NetNS) (bridge : String) (mtu : Int)
    (gateway : IPNet) (s : σ) : BridgeCall → BridgeCall × σ
  | .start =>
    match (P.LinkByName s cur bridge).1 with
    | some l => (.done (some l, none), s)
    | none => (.create, s)
  | .create =>
    let r := P.LinkAdd s cur (newBridge bridge mtu)
    if r.1 ≠ none ∧ r.1 ≠ some EEXIST then (.done (none, bare r.1), r.2) else (.fetch, r.2)
  | .fetch =>
    let r := P.LinkByName s cur bridge
    if r.2 ≠ none then (.done (none, bare r.2), s) else (.assign r.1, s)
  | .assign dev =>
    let r := P.AddrAdd s cur dev ⟨gateway⟩
    if r.1 ≠ none then (.done (none, bare r.1), r.2) else (.setUp dev, r.2)
  | .setUp dev =>
    let r := P.LinkSetUp s cur dev
    if r.1 ≠ none then (.done (none, bare r.1), r.2) else (.done (dev, none), r.2)
  | .done ret => (.done ret, s)

/-- Concurrent callers of `CreateBridge(bridge, mtu, gateway)` on one host: the shared
link-layer state and where each caller stands. -/
structure Callers (σ : Type) where
  state : σ
  calls : List BridgeCall

/-- Let caller number `i` make its next library call. -/
def Callers.step (P : LinkLayer σ) (cur : NetNS) (bridge : String) (mtu : Int)
    (gateway : IPNet) (c : Callers σ) (i : Nat) : Callers σ :=
  match c.calls.get? i with
  | none => c
  | some b =>
    let r := BridgeCall.step P cur bridge mtu gateway c.state b
    { state := r.2, calls := c.calls.set i r.1 }

/-- Run an interleaving: the list says which caller makes the next library call. -/
def Callers.run (P : LinkLayer σ) (cur : NetNS) (bridge : String) (mtu : Int)
    (gateway : IPNet) (c : Callers σ) (schedule : List Nat) : Callers σ :=
  schedule.foldl (Callers.step P cur bridge mtu gateway) c

end Concurrent

/-! ## Hosts and arguments used in the examples -/

namespace Sample

/-- The host namespace. -/
def hostNS : NetNS := 0

/-- The namespace of a pod. -/
def podNS : NetNS := 1

/-- Gateway `10.1.1.1/24`. -/
def gatewayNet : IPNet := ⟨⟨[10, 1, 1, 1]⟩, ⟨[255, 255, 255, 0]⟩⟩

/-- Gateway address `10.1.1.1`. -/
def gatewayIP : IP := ⟨[10, 1, 1, 1]⟩

/-- Pod address `10.1.1.2/24`. -/
def podNet : IPNet := ⟨⟨[10, 1, 1, 2]⟩, ⟨[255, 255, 255, 0]⟩⟩

/-- Pod address `10.1.1.2`. -/
def podIP : IP := ⟨[10, 1, 1, 2]⟩

/-- A host with an open pod namespace and no devices. -/
def emptyHost : Kernel :=
  { namespaces := [hostNS, podNS], devices := [], routes := [],
    vethNames := ["veth1a2b3c4d", "veth5e6f7a8b"], faults := [] }

/-- The bridge `br0` as `CreateBridge` leaves it on `emptyHost`. -/
def br0 : Link :=
  { kind := .bridge, index := 1, name := "br0", mtu := 1500, txQLen := 1000,
    masterIndex := 0, up := true }

/-- The handle on `br0` that `CreateBridge` fetches right after creating it (not yet up). -/
def br0Fresh : Link := { br0 with up := false }

/-- A host with the bridge `br0`, up and with the gateway address. -/
def bridgedHost : Kernel :=
  { emptyHost with devices := [{ ns := hostNS, link := br0, peer := 0, addrs := [⟨gatewayNet⟩] }] }

/-- The same host after a pod was attached as `eth0` with address `10.1.1.2/24`. -/
def attachedHost : Kernel :=
  { namespaces := [hostNS, podNS],
    devices :=
      [ { ns := hostNS, link := br0, peer := 0, addrs := [⟨gatewayNet⟩] },
        { ns := podNS, peer := 3, addrs := [⟨podNet⟩],
          link := { kind := .veth, index := 2, name := "eth0", mtu := 1500, txQLen := 0,
                    masterIndex := 0, up := true } },
        { ns := hostNS, peer := 2, addrs := [],
          link := { kind := .veth, index := 3, name := "veth1a2b3c4d", mtu := 1500, txQLen := 0,
                    masterIndex := 1, up := true } } ],
    routes := [{ ns := podNS, gw := gatewayIP, dev := 2 }],
    vethNames := ["veth5e6f7a8b"], faults := [] }

/-- A second pod address, `10.1.1.3/24`. -/
def podNet2 : IPNet := ⟨⟨[10, 1, 1, 3]⟩, ⟨[255, 255, 255, 0]⟩⟩

/-- The handle on the container end `eth0` as `ip.SetupVeth` creates it on `bridgedHost`. -/
def eth0Link : Link := (Kernel.vethCont podNS "eth0" 1500 2).link

/-- The handle on the host end of that pair. -/
def hostLink : Link := (Kernel.vethHost hostNS "veth1a2b3c4d" 1500 2).link

/-- The host `bridgedHost` after `ip.SetupVeth` made the pair. -/
def afterVeth : Kernel := (Kernel.ipSetupVeth bridgedHost podNS "eth0" 1500 "" hostNS).2

/-- The host after `10.1.1.2/24` was assigned to `eth0`. -/
def afterAddr : Kernel := (Kernel.AddrAdd afterVeth podNS (some eth0Link) ⟨podNet⟩).2

/-- The host after `eth0` was set up. -/
def afterUp : Kernel := (Kernel.LinkSetUp afterAddr podNS (some eth0Link)).2

/-- The host after the default route via `10.1.1.1` was added. -/
def afterRoute : Kernel :=
  (Kernel.ipAddDefaultRoute afterUp podNS gatewayIP (some eth0Link)).2

/-- A stale handle on `br0`: no device has its index. -/
def staleBr0 : Link := { br0 with index := 9 }

end Sample

/-! ## Properties -/

section Properties

variable {σ : Type}

@[simp] theorem bare_eq_none (e : Option ExtError) : bare e = none ↔ e = none := by
  cases e <;> simp [bare]

@[simp] theorem bare_some (e : ExtError) : bare (some e) = some (.ext e) := rfl

/-- The first branch of `CreateBridge`: a device found by the first lookup is returned at
once. -/
theorem createBridge_of_found (P : LinkLayer σ) (cur : NetNS) (s : σ) (bridge : String)
    (mtu : Int) (gateway : IPNet) (l : Link) (hfound : (P.LinkByName s cur bridge).1 = some l) :
    CreateBridge P cur s bridge mtu gateway =
      ⟨(some l, none), s, [Event.linkByName cur bridge (some l) (P.LinkByName s cur bridge).2]⟩ := by
  simp [CreateBridge, hfound]

end Properties

namespace Kernel

theorem pop_devices (k : Kernel) : k.pop.2.devices = k.devices := by
  unfold pop; split <;> rfl

theorem pop_routes (k : Kernel) : k.pop.2.routes = k.routes := by
  unfold pop; split <;> rfl

theorem pop_namespaces (k : Kernel) : k.pop.2.namespaces = k.namespaces := by
  unfold pop; split <;> rfl

theorem find?_map_same {α : Type} (p : α → Bool) (f : α → α) (h : ∀ a, p (f a) = p a)
    (l : List α) : (l.map f).find? p = (l.find? p).map f := by
  induction l with
  | nil => rfl
  | cons a l ih =>
    simp only [List.map_cons, List.find?_cons, h]
    cases p a <;> simp [ih]

/-- Lookups depend on the devices only. -/
theorem byName_congr {k t : Kernel} (h : t.devices = k.devices) (ns : NetNS) (name : String) :
    t.byName ns name = k.byName ns name := by
  simp [byName, h]

theorem byName_map (k t : Kernel) (ns : NetNS) (i : Nat) (f : Device → Device)
    (ht : t.devices = k.devices.map (Device.ifAt ns i f))
    (hns : ∀ d, (f d).ns = d.ns) (hname : ∀ d, (f d).link.name = d.link.name)
    (ns2 : NetNS) (name : String) :
    t.byName ns2 name = (k.byName ns2 name).map (Device.ifAt ns i f) := by
  simp only [byName, ht]
  apply find?_map_same
  intro d
  unfold Device.ifAt
  split_ifs <;> simp [hns, hname]

theorem addrAdd_ok {k t : Kernel} {ns : NetNS} {l : Option Link} {a : Addr}
    (h : AddrAdd k ns l a = (none, t)) :
    ∃ lk, l = some lk ∧ t.routes = k.routes ∧ t.namespaces = k.namespaces ∧
      ((a.ipNet.ip.Equal IPv4zero = true ∧ t.devices = k.devices) ∨
       (a.ipNet.ip.Equal IPv4zero = false ∧
        t.devices = k.devices.map (Device.ifAt ns lk.index (Device.addAddr a)))) := by
  revert h
  unfold AddrAdd
  rcases hp : k.pop with ⟨_ | e, k1⟩
  · have h1 : k1 = k.pop.2 := by rw [hp]
    simp only
    split
    · simp
    · split
      · simp
      · split_ifs with c1 c2 c3 c4 c5
        · simp [EINVAL]
        · intro h
          simp only [Prod.mk.injEq, true_and] at h
          subst h
          exact ⟨_, rfl, by simp [h1, pop_routes], by simp [h1, pop_namespaces],
            Or.inl ⟨c2, by simp [h1, pop_devices]⟩⟩
        · simp [EINVAL]
        · simp [EADDRNOTAVAIL]
        · simp [EEXIST]
        · intro h
          simp only [Prod.mk.injEq, true_and] at h
          subst h
          exact ⟨_, rfl, by simp [modify, h1, pop_routes], by simp [modify, h1, pop_namespaces],
            Or.inr ⟨by simpa using c2, by simp [modify, h1, pop_devices]⟩⟩
  · simp

theorem linkSetUp_ok {k t : Kernel} {ns : NetNS} {l : Option Link}
    (h : LinkSetUp k ns l = (none, t)) :
    ∃ lk, l = some lk ∧ t.devices = k.devices.map (Device.ifAt ns lk.index Device.setUp) ∧
      t.routes = k.routes ∧ t.namespaces = k.namespaces := by
  revert h
  unfold LinkSetUp
  rcases hp : k.pop with ⟨_ | e, k1⟩
  · have h1 : k1 = k.pop.2 := by rw [hp]
    simp only
    split
    · simp
    · split
      · simp
      · intro h
        simp only [Prod.mk.injEq, true_and] at h
        subst h
        exact ⟨_, rfl, by simp [modify, h1, pop_devices], by simp [modify, h1, pop_routes],
          by simp [modify, h1, pop_namespaces]⟩
  · simp

end Kernel

section VethCreated

open Kernel

end VethCreated

section Helpers

variable {σ : Type}

/-- A call of `CreateBridge` running alone goes through `BridgeCall.step` to the result and
the state of `CreateBridge`: five library calls at most. -/
theorem bridgeCall_alone (P : LinkLayer σ) (cur : NetNS) (bridge : String) (mtu : Int)
    (gateway : IPNet) (s : σ) :
    (Callers.run P cur bridge mtu gateway ⟨s, [.start]⟩ [0, 0, 0, 0, 0]).calls =
      [.done (CreateBridge P cur s bridge mtu gateway).ret] ∧
    (Callers.run P cur bridge mtu gateway ⟨s, [.start]⟩ [0, 0, 0, 0, 0]).state =
      (CreateBridge P cur s bridge mtu gateway).state := by
  cases h0 : (P.LinkByName s cur bridge).1 with
  | some l =>
    simp [Callers.run, Callers.step, BridgeCall.step, CreateBridge, h0]
  | none =>
    by_cases h1 : (P.LinkAdd s cur (newBridge bridge mtu)).1 ≠ none ∧
        (P.LinkAdd s cur (newBridge bridge mtu)).1 ≠ some EEXIST
    · simp [Callers.run, Callers.step, BridgeCall.step, CreateBridge, h0, h1]
    · by_cases h2 : (P.LinkByName (P.LinkAdd s cur (newBridge bridge mtu)).2 cur bridge).2 ≠ none
      · simp [Callers.run, Callers.step, BridgeCall.step, CreateBridge, h0, h1, h2]
      · by_cases h3 : (P.AddrAdd (P.LinkAdd s cur (newBridge bridge mtu)).2 cur
            (P.LinkByName (P.LinkAdd s cur (newBridge bridge mtu)).2 cur bridge).1
            ⟨gateway⟩).1 ≠ none
        · simp [Callers.run, Callers.step, BridgeCall.step, CreateBridge, h0, h1, h2, h3]
        · by_cases h4 : (P.LinkSetUp (P.AddrAdd (P.LinkAdd s cur (newBridge bridge mtu)).2 cur
              (P.LinkByName (P.LinkAdd s cur (newBridge bridge mtu)).2 cur bridge).1
              ⟨gateway⟩).2 cur
              (P.LinkByName (P.LinkAdd s cur (newBridge bridge mtu)).2 cur bridge).1).1 ≠ none
          · simp [Callers.run, Callers.step, BridgeCall.step, CreateBridge, h0, h1, h2, h3, h4]
          · simp [Callers.run, Callers.step, BridgeCall.step, CreateBridge, h0, h1, h2, h3, h4]

/-- What `DelVeth` returns once the namespace is entered: nil when `os.IsNotExist` holds of
the lookup error, the lookup error when it is another one, the result of `LinkDel`
otherwise. -/
theorem delVeth_returns (P : LinkLayer σ) (s : σ) (netns : NetNS) (ifName : String)
    (henter : P.nsEnter s netns = none) :
    (osIsNotExist (P.LinkByName s netns ifName).2 = true →
      (DelVeth P s netns ifName).ret = none ∧ (DelVeth P s netns ifName).state = s) ∧
    (∀ e, (P.LinkByName s netns ifName).2 = some e → osIsNotExist (some e) = false →
      (DelVeth P s netns ifName).ret = some (.ext e)) ∧
    ((P.LinkByName s netns ifName).2 = none →
      (DelVeth P s netns ifName).ret = bare (P.LinkDel s netns (P.LinkByName s netns ifName).1).1) := by
  refine ⟨?_, ?_, ?_⟩
  · intro h
    simp [DelVeth, henter, h]
  · intro e he hne
    simp [DelVeth, henter, he, hne]
  · intro h
    simp [DelVeth, henter, h, osIsNotExist]

end Helpers

namespace Kernel

theorem addrAdd_keepsLinks : AddrAddKeepsLinks linkLayer := by
  intro s ns l a hok ns2 name d hd
  have h : AddrAdd s ns l a = (none, (AddrAdd s ns l a).2) := Prod.ext hok rfl
  obtain ⟨lk, -, -, -, hdev⟩ := addrAdd_ok h
  simp only [linkLayer, LinkByName] at hd ⊢
  rcases hdev with ⟨-, hdev⟩ | ⟨-, hdev⟩
  · rw [byName_congr hdev]
    cases hn : s.byName ns2 name with
    | none => simp [hn] at hd
    | some d0 =>
      simp only [hn, Option.some.injEq] at hd
      exact ⟨d0.link, rfl, by rw [hd]⟩
  · rw [byName_map s _ _ _ _ hdev (fun _ => rfl) (fun _ => rfl)]
    cases hn : s.byName ns2 name with
    | none => simp [hn] at hd
    | some d0 =>
      simp only [hn, Option.some.injEq] at hd
      subst hd
      refine ⟨_, rfl, ?_⟩
      unfold Device.ifAt
      split_ifs <;> rfl

theorem linkSetUp_keepsLinks : LinkSetUpKeepsLinks linkLayer := by
  intro s ns l hok ns2 name d hd
  have h : LinkSetUp s ns l = (none, (LinkSetUp s ns l).2) := Prod.ext hok rfl
  obtain ⟨lk, -, hdev, -, -⟩ := linkSetUp_ok h
  simp only [linkLayer, LinkByName] at hd ⊢
  rw [byName_map s _ _ _ _ hdev (fun _ => rfl) (fun _ => rfl)]
  cases hn : s.byName ns2 name with
  | none => simp [hn] at hd
  | some d0 =>
    simp only [hn, Option.some.injEq] at hd
    subst hd
    refine ⟨_, rfl, ?_⟩
    unfold Device.ifAt
    split_ifs <;> rfl

end Kernel

/-! ## The claims -/

section Claims

variable {σ : Type}

open Sample Kernel

/-- C1: for every link layer in which a successful `AddrAdd` and a successful `LinkSetUp`
remove or renumber no device, if a first `CreateBridge(name, mtu, gateway)` returns a device
`d` and a nil error, then a second call right after it returns a handle on the same device
(same index) and a nil error, makes no call but the lookup by name, and leaves the state as
it was. -/
theorem CreateBridge_idempotent (P : LinkLayer σ) (haddr : AddrAddKeepsLinks P)
    (hup : LinkSetUpKeepsLinks P) (cur : NetNS) (s : σ) (bridge : String) (mtu : Int)
    (gateway : IPNet) (d : Link)
    (hfirst : (CreateBridge P cur s bridge mtu gateway).ret = (some d, none)) :
    ∃ d2 : Link, d2.index = d.index ∧
      (CreateBridge P cur (CreateBridge P cur s bridge mtu gateway).state bridge mtu gateway).ret
        = (some d2, none) ∧
      (CreateBridge P cur (CreateBridge P cur s bridge mtu gateway).state bridge mtu gateway).state
        = (CreateBridge P cur s bridge mtu gateway).state ∧
      (CreateBridge P cur (CreateBridge P cur s bridge mtu gateway).state bridge mtu gateway).trace
        = [Event.linkByName cur bridge (some d2)
            (P.LinkByName (CreateBridge P cur s bridge mtu gateway).state cur bridge).2] := by
  have key : ∃ d2 : Link, d2.index = d.index ∧
      (P.LinkByName (CreateBridge P cur s bridge mtu gateway).state cur bridge).1 = some d2 := by
    revert hfirst
    simp only [CreateBridge]
    split
    · rename_i l hl
      intro h
      simp only [Prod.mk.injEq, Option.some.injEq, and_true] at h
      exact ⟨l, by rw [h], hl⟩
    · split_ifs with h1 h2 h3 h4
      · simp
      · simp
      · simp
      · simp
      · intro h
        simp only [Prod.mk.injEq, and_true] at h
        have h3' : (P.AddrAdd (P.LinkAdd s cur (newBridge bridge mtu)).2 cur
            (P.LinkByName (P.LinkAdd s cur (newBridge bridge mtu)).2 cur bridge).1
            ⟨gateway⟩).1 = none := by
          simpa using h3
        have h4' := not_not.mp h4
        obtain ⟨da, hda, hia⟩ := haddr _ _ _ _ h3' cur bridge d h
        obtain ⟨db, hdb, hib⟩ := hup _ _ _ h4' cur bridge da hda
        exact ⟨db, by rw [hib, hia], hdb⟩
  obtain ⟨d2, hidx, hlook⟩ := key
  refine ⟨d2, hidx, ?_⟩
  rw [createBridge_of_found P cur _ bridge mtu gateway d2 hlook]
  exact ⟨rfl, rfl, rfl⟩

/-- C1, on a concrete host: the first call creates `br0` on a host without devices, the
second call returns the device with the same index. -/
theorem CreateBridge_idempotent_witness :
    (CreateBridge Kernel.linkLayer hostNS emptyHost "br0" 1500 gatewayNet).ret
      = (some br0Fresh, none) ∧
    ∃ d2 : Link, d2.index = br0Fresh.index ∧
      (CreateBridge Kernel.linkLayer hostNS
        (CreateBridge Kernel.linkLayer hostNS emptyHost "br0" 1500 gatewayNet).state
        "br0" 1500 gatewayNet).ret = (some d2, none) ∧
      (CreateBridge Kernel.linkLayer hostNS
        (CreateBridge Kernel.linkLayer hostNS emptyHost "br0" 1500 gatewayNet).state
        "br0" 1500 gatewayNet).state
        = (CreateBridge Kernel.linkLayer hostNS emptyHost "br0" 1500 gatewayNet).state ∧
      (CreateBridge Kernel.linkLayer hostNS
        (CreateBridge Kernel.linkLayer hostNS emptyHost "br0" 1500 gatewayNet).state
        "br0" 1500 gatewayNet).trace
        = [Event.linkByName hostNS "br0" (some d2)
            (Kernel.linkLayer.LinkByName
              (CreateBridge Kernel.linkLayer hostNS emptyHost "br0" 1500 gatewayNet).state
              hostNS "br0").2] :=
  ⟨by decide,
    CreateBridge_idempotent Kernel.linkLayer Kernel.addrAdd_keepsLinks
      Kernel.linkSetUp_keepsLinks hostNS emptyHost "br0" 1500 gatewayNet br0Fresh (by decide)⟩

/-- C2: in every state in which the lookup by name finds a device, `CreateBridge` returns
that device and a nil error whatever `mtu` and `gateway` are, leaves the state as it is, and
its only library call is that lookup (no `LinkAdd`, `AddrAdd` or `LinkSetUp`). -/
theorem CreateBridge_existing_device (P : LinkLayer σ) (cur : NetNS) (s : σ) (bridge : String)
    (mtu : Int) (gateway : IPNet) (l : Link)
    (hfound : (P.LinkByName s cur bridge).1 = some l) :
    (CreateBridge P cur s bridge mtu gateway).ret = (some l, none) ∧
    (CreateBridge P cur s bridge mtu gateway).state = s ∧
    (CreateBridge P cur s bridge mtu gateway).trace =
      [Event.linkByName cur bridge (some l) (P.LinkByName s cur bridge).2] := by
  rw [createBridge_of_found P cur s bridge mtu gateway l hfound]
  exact ⟨rfl, rfl, rfl⟩

/-- C2, on a concrete host: `br0` exists with MTU 1500 and address `10.1.1.1/24`; a call
with MTU 9000 and another address returns it as it is. -/
theorem CreateBridge_existing_device_witness :
    (Kernel.linkLayer.LinkByName bridgedHost hostNS "br0").1 = some br0 ∧
    (CreateBridge Kernel.linkLayer hostNS bridgedHost "br0" 9000 podNet2).ret = (some br0, none) ∧
    (CreateBridge Kernel.linkLayer hostNS bridgedHost "br0" 9000 podNet2).state = bridgedHost ∧
    (CreateBridge Kernel.linkLayer hostNS bridgedHost "br0" 9000 podNet2).trace =
      [Event.linkByName hostNS "br0" (some br0)
        (Kernel.linkLayer.LinkByName bridgedHost hostNS "br0").2] :=
  ⟨by decide,
    CreateBridge_existing_device Kernel.linkLayer hostNS bridgedHost "br0" 9000 podNet2 br0
      (by decide)⟩

/-- C4 (what the code does): two callers of `CreateBridge("br0", 1500, 10.1.1.1/24)` on a
host without devices, library calls interleaved so that both miss the device at the first
lookup, the second caller loses `LinkAdd` with `EEXIST`, which is tolerated, and assigns the
gateway address after the first caller did.  One device exists afterwards, the first caller
gets it, and the second caller returns the error `EEXIST` of `AddrAdd`. -/
theorem CreateBridge_race_already_exists :
    (Callers.run Kernel.linkLayer hostNS "br0" 1500 gatewayNet ⟨emptyHost, [.start, .start]⟩
      [0, 1, 0, 1]).calls = [.fetch, .fetch] ∧
    (Kernel.linkLayer.LinkAdd
      (Callers.run Kernel.linkLayer hostNS "br0" 1500 gatewayNet ⟨emptyHost, [.start, .start]⟩
        [0, 1, 0]).state hostNS (newBridge "br0" 1500)).1 = some EEXIST ∧
    (Callers.run Kernel.linkLayer hostNS "br0" 1500 gatewayNet ⟨emptyHost, [.start, .start]⟩
      [0, 1, 0, 1, 0, 0, 0, 1]).calls = [.done (some br0Fresh, none), .assign (some br0)] ∧
    (Callers.run Kernel.linkLayer hostNS "br0" 1500 gatewayNet ⟨emptyHost, [.start, .start]⟩
      [0, 1, 0, 1, 0, 0, 0, 1, 1]).calls =
      [.done (some br0Fresh, none), .done (none, some (.ext EEXIST))] ∧
    (Callers.run Kernel.linkLayer hostNS "br0" 1500 gatewayNet ⟨emptyHost, [.start, .start]⟩
      [0, 1, 0, 1, 0, 0, 0, 1, 1]).state = bridgedHost := by
  decide

/-- C6 (what the code does): `eth0` exists in the pod namespace.  The first `DelVeth`
deletes it and returns nil.  The second `DelVeth` gets netlink's `LinkNotFoundError` from
the lookup, of which `os.IsNotExist` is false, and returns that error. -/
theorem DelVeth_twice_link_not_found :
    (DelVeth Kernel.linkLayer attachedHost podNS "eth0").ret = none ∧
    (Kernel.linkLayer.LinkByName (DelVeth Kernel.linkLayer attachedHost podNS "eth0").state
      podNS "eth0") = (none, some (.linkNotFound "Link not found")) ∧
    osIsNotExist (some (.linkNotFound "Link not found")) = false ∧
    (DelVeth Kernel.linkLayer (DelVeth Kernel.linkLayer attachedHost podNS "eth0").state
      podNS "eth0").ret = some (.ext (.linkNotFound "Link not found")) := by
  decide

/-- C7: once the namespace is entered, (1) when the lookup and the listing of IPv4
addresses succeed, `CheckVeth` returns nil if and only if some listed address is `Equal` to
the expected one, and otherwise returns the error made from the format
`"failed to find ip %s for %s"` with the expected address and the interface name;
(2) when the lookup fails, it returns the lookup error as it is, which is not that error;
(3) the state is left as it was and every library call made is an entering of a namespace,
a lookup or a listing. -/
theorem CheckVeth_specific (P : LinkLayer σ) (s : σ) (netns : NetNS) (ifName : String) (ip : IP)
    (henter : P.nsEnter s netns = none) :
    ((P.LinkByName s netns ifName).2 = none →
      (P.AddrList s netns (P.LinkByName s netns ifName).1 .FAMILY_V4).2 = none →
      ((CheckVeth P s netns ifName ip).ret = none ↔
        ∃ addr ∈ (P.AddrList s netns (P.LinkByName s netns ifName).1 .FAMILY_V4).1,
          addr.ipNet.ip.Equal ip = true) ∧
      ((CheckVeth P s netns ifName ip).ret ≠ none →
        (CheckVeth P s netns ifName ip).ret =
          some (.errorf "failed to find ip %s for %s" [.ip ip, .str ifName]))) ∧
    (∀ e, (P.LinkByName s netns ifName).2 = some e →
      (CheckVeth P s netns ifName ip).ret = some (.ext e) ∧
      (CheckVeth P s netns ifName ip).ret ≠
        some (.errorf "failed to find ip %s for %s" [.ip ip, .str ifName])) ∧
    (CheckVeth P s netns ifName ip).state = s ∧
    (∀ ev ∈ (CheckVeth P s netns ifName ip).trace, ev.op.readOnly = true) := by
  refine ⟨?_, ?_, ?_, ?_⟩
  · intro h1 h2
    simp only [CheckVeth, henter, h1, h2, hasIP]
    by_cases h : ∃ addr ∈ (P.AddrList s netns (P.LinkByName s netns ifName).1 .FAMILY_V4).1,
          addr.ipNet.ip.Equal ip = true
    · simp [h]
    · simp [h]
  · intro e h1
    simp [CheckVeth, henter, h1]
  · simp only [CheckVeth]
    split_ifs <;> rfl
  · simp only [CheckVeth]
    split_ifs <;> simp [Event.op, Op.readOnly]

/-- C7, on a concrete host where `eth0` has the address `10.1.1.2`: a check for `10.1.1.3`
on `eth0` returns the not-found error, a check on the missing `eth1` returns the lookup
error. -/
theorem CheckVeth_specific_witness :
    Kernel.linkLayer.nsEnter attachedHost podNS = none ∧
    (CheckVeth Kernel.linkLayer attachedHost podNS "eth0" podNet2.ip).ret =
      some (.errorf "failed to find ip %s for %s" [.ip podNet2.ip, .str "eth0"]) ∧
    (CheckVeth Kernel.linkLayer attachedHost podNS "eth1" podNet2.ip).ret =
      some (.ext (.linkNotFound "Link not found")) :=
  ⟨by decide,
    ((CheckVeth_specific Kernel.linkLayer attachedHost podNS "eth0" podNet2.ip (by decide)).1
      (by decide) (by decide)).2 (by decide),
    ((CheckVeth_specific Kernel.linkLayer attachedHost podNS "eth1" podNet2.ip (by decide)).2.1
      (.linkNotFound "Link not found") (by decide)).1⟩

/-- C9 (amended): name the results of the library calls of `SetupVeth`, each made in the
state the call before left.  When the first call to fail is one made inside `netns.Do`
(entering the namespace, veth creation, container-side lookup, address assignment, set-up,
default route) and fails with `e`, `SetupVeth` returns `e` itself.  When it is the
host-side lookup, `SetupVeth` returns the error made from `"failed to lookup %q: %v"` with
the host-end name and `e`.  When it is `LinkSetMaster`, `SetupVeth` returns the error made
from `"failed to connect %q to bridge %v: %v"` with the host-end name, the bridge name and
`e`. -/
theorem SetupVeth_error_context (P : LinkLayer σ) (cur : NetNS) (s : σ) (netns : NetNS)
    (br : Link) (mtu : Int) (ifName : String) (podIP : IPNet) (gateway : IP)
    (e0 e1 e2 e3 e4 e5 e6 e7 : Option ExtError) (hostVeth containerVeth : Interface)
    (conLink hostRes : Option Link) (s1 s3 s4 s5 s7 : σ)
    (h0 : P.nsEnter s netns = e0)
    (h1 : P.ipSetupVeth s netns ifName mtu "" cur = ((hostVeth, containerVeth, e1), s1))
    (h2 : P.LinkByName s1 netns containerVeth.name = (conLink, e2))
    (h3 : P.AddrAdd s1 netns conLink ⟨podIP⟩ = (e3, s3))
    (h4 : P.LinkSetUp s3 netns conLink = (e4, s4))
    (h5 : P.ipAddDefaultRoute s4 netns gateway conLink = (e5, s5))
    (h6 : P.LinkByName s5 cur hostVeth.name = (hostRes, e6))
    (h7 : P.LinkSetMaster s5 cur (hostRes.getD br) br = (e7, s7)) :
    let r := SetupVeth P cur s netns br mtu ifName podIP gateway
    (∀ e, e0 = some e → r.ret = some (.ext e)) ∧
    (∀ e, e0 = none → e1 = some e → r.ret = some (.ext e)) ∧
    (∀ e, e0 = none → e1 = none → e2 = some e → r.ret = some (.ext e)) ∧
    (∀ e, e0 = none → e1 = none → e2 = none → e3 = some e → r.ret = some (.ext e)) ∧
    (∀ e, e0 = none → e1 = none → e2 = none → e3 = none → e4 = some e →
      r.ret = some (.ext e)) ∧
    (∀ e, e0 = none → e1 = none → e2 = none → e3 = none → e4 = none → e5 = some e →
      r.ret = some (.ext e)) ∧
    (∀ e, e0 = none → e1 = none → e2 = none → e3 = none → e4 = none → e5 = none →
      e6 = some e →
      r.ret = some (.errorf "failed to lookup %q: %v" [.str hostVeth.name, .err e])) ∧
    (∀ e hv, e0 = none → e1 = none → e2 = none → e3 = none → e4 = none → e5 = none →
      e6 = none → hostRes = some hv → e7 = some e →
      r.ret = some (.errorf "failed to connect %q to bridge %v: %v"
        [.str hv.name, .str br.name, .err e])) := by
  intro r
  rcases e0 with _ | x0
  swap
  · simp [r, SetupVeth, h0]
  rcases e1 with _ | x1
  swap
  · simp [r, SetupVeth, h0, h1]
  rcases e2 with _ | x2
  swap
  · simp [r, SetupVeth, h0, h1, h2]
  rcases e3 with _ | x3
  swap
  · simp [r, SetupVeth, h0, h1, h2, h3]
  rcases e4 with _ | x4
  swap
  · simp [r, SetupVeth, h0, h1, h2, h3, h4]
  rcases e5 with _ | x5
  swap
  · simp [r, SetupVeth, h0, h1, h2, h3, h4, h5]
  rcases e6 with _ | x6
  swap
  · simp [r, SetupVeth, h0, h1, h2, h3, h4, h5, h6]
  rcases hostRes with _ | hv
  · simp [r, SetupVeth, h0, h1, h2, h3, h4, h5, h6]
  simp only [Option.getD_some] at h7
  rcases e7 with _ | x7
  · simp [r, SetupVeth, h0, h1, h2, h3, h4, h5, h6, h7]
  · simp [r, SetupVeth, h0, h1, h2, h3, h4, h5, h6, h7]

/-- C9, on a concrete host, with a stale bridge handle: every call succeeds but
`LinkSetMaster`, which fails with `EINVAL`, and the error returned names the step, the host
end and the bridge. -/
theorem SetupVeth_error_context_witness :
    (SetupVeth Kernel.linkLayer hostNS bridgedHost podNS staleBr0 1500 "eth0" podNet
      gatewayIP).ret =
      some (.errorf "failed to connect %q to bridge %v: %v"
        [.str "veth1a2b3c4d", .str "br0", .err EINVAL]) :=
  (SetupVeth_error_context Kernel.linkLayer hostNS bridgedHost podNS staleBr0 1500 "eth0" podNet
    gatewayIP none none none none none none none (some EINVAL) ⟨"veth1a2b3c4d"⟩ ⟨"eth0"⟩
    (some eth0Link) (some hostLink) afterVeth afterAddr afterUp afterRoute afterRoute
    (by decide) (by decide) (by decide) (by decide) (by decide) (by decide) (by decide)
    (by decide)).2.2.2.2.2.2.2 EINVAL hostLink rfl rfl rfl rfl rfl rfl rfl rfl rfl

/-- C9 as stated fails for the steps inside `netns.Do`: the default-route installation fails
with `EEXIST` (the pod has a default route already) and `SetupVeth` returns that very
`EEXIST`, with no step and no name added. -/
theorem SetupVeth_error_not_wrapped :
    (SetupVeth Kernel.linkLayer hostNS attachedHost podNS br0 1500 "net1" podNet2
      gatewayIP).trace.getLast?
      = some (Event.addDefaultRoute podNS gatewayIP
          (some (Kernel.vethCont podNS "net1" 1500 4).link) (some EEXIST)) ∧
    (SetupVeth Kernel.linkLayer hostNS attachedHost podNS br0 1500 "net1" podNet2
      gatewayIP).ret = some (.ext EEXIST) := by
  decide

/-- C10: name the results of the library calls of `SetupVeth`, each made in the state the
call before left: entering the namespace (`e0`), veth creation (`e1`), container-side
lookup (`e2`), address assignment (`e3`), set-up (`e4`), default route (`e5`), host-side
lookup under the name the creation returned (`hostRes`, `e6`), `LinkSetMaster` to the
bridge (`e7`); `plan` is the list of these eight calls in that order.  Whichever call is
the first to fail (for the host-side lookup: to return an error or a nil link), `SetupVeth`
returns an error, the calls it made are the plan up to that call and no further, and the
state it leaves is the one that call left.  When no call fails, `SetupVeth` returns nil,
all eight calls were made in order and the state is the one `LinkSetMaster` left.  It
returns nil in that case only. -/
theorem SetupVeth_order (P : LinkLayer σ) (cur : NetNS) (s : σ) (netns : NetNS) (br : Link)
    (mtu : Int) (ifName : String) (podIP : IPNet) (gateway : IP)
    (e0 e1 e2 e3 e4 e5 e6 e7 : Option ExtError) (hostVeth containerVeth : Interface)
    (conLink hostRes : Option Link) (s1 s3 s4 s5 s7 : σ)
    (h0 : P.nsEnter s netns = e0)
    (h1 : P.ipSetupVeth s netns ifName mtu "" cur = ((hostVeth, containerVeth, e1), s1))
    (h2 : P.LinkByName s1 netns containerVeth.name = (conLink, e2))
    (h3 : P.AddrAdd s1 netns conLink ⟨podIP⟩ = (e3, s3))
    (h4 : P.LinkSetUp s3 netns conLink = (e4, s4))
    (h5 : P.ipAddDefaultRoute s4 netns gateway conLink = (e5, s5))
    (h6 : P.LinkByName s5 cur hostVeth.name = (hostRes, e6))
    (h7 : P.LinkSetMaster s5 cur (hostRes.getD br) br = (e7, s7)) :
    let plan := setupPlan cur netns br mtu ifName podIP gateway hostVeth containerVeth conLink
      hostRes (hostRes.getD br) e0 e1 e2 e3 e4 e5 e6 e7
    let r := SetupVeth P cur s netns br mtu ifName podIP gateway
    (e0 ≠ none → r.ret ≠ none ∧ r.state = s ∧ r.trace = plan.take 1) ∧
    (e0 = none → e1 ≠ none → r.ret ≠ none ∧ r.state = s1 ∧ r.trace = plan.take 2) ∧
    (e0 = none → e1 = none → e2 ≠ none →
      r.ret ≠ none ∧ r.state = s1 ∧ r.trace = plan.take 3) ∧
    (e0 = none → e1 = none → e2 = none → e3 ≠ none →
      r.ret ≠ none ∧ r.state = s3 ∧ r.trace = plan.take 4) ∧
    (e0 = none → e1 = none → e2 = none → e3 = none → e4 ≠ none →
      r.ret ≠ none ∧ r.state = s4 ∧ r.trace = plan.take 5) ∧
    (e0 = none → e1 = none → e2 = none → e3 = none → e4 = none → e5 ≠ none →
      r.ret ≠ none ∧ r.state = s5 ∧ r.trace = plan.take 6) ∧
    (e0 = none → e1 = none → e2 = none → e3 = none → e4 = none → e5 = none →
      (e6 ≠ none ∨ hostRes = none) →
      r.ret ≠ none ∧ r.state = s5 ∧ r.trace = plan.take 7) ∧
    (e0 = none → e1 = none → e2 = none → e3 = none → e4 = none → e5 = none →
      e6 = none → hostRes ≠ none → e7 ≠ none →
      r.ret ≠ none ∧ r.state = s7 ∧ r.trace = plan) ∧
    (e0 = none → e1 = none → e2 = none → e3 = none → e4 = none → e5 = none →
      e6 = none → hostRes ≠ none → e7 = none →
      r.ret = none ∧ r.state = s7 ∧ r.trace = plan) ∧
    (r.ret = none ↔
      e0 = none ∧ e1 = none ∧ e2 = none ∧ e3 = none ∧ e4 = none ∧ e5 = none ∧
        e6 = none ∧ hostRes ≠ none ∧ e7 = none) := by
  intro plan r
  rcases e0 with _ | x0
  swap
  · simp [r, plan, SetupVeth, h0, setupPlan]
  rcases e1 with _ | x1
  swap
  · simp [r, plan, SetupVeth, h0, h1, setupPlan]
  rcases e2 with _ | x2
  swap
  · simp [r, plan, SetupVeth, h0, h1, h2, setupPlan]
  rcases e3 with _ | x3
  swap
  · simp [r, plan, SetupVeth, h0, h1, h2, h3, setupPlan]
  rcases e4 with _ | x4
  swap
  · simp [r, plan, SetupVeth, h0, h1, h2, h3, h4, setupPlan]
  rcases e5 with _ | x5
  swap
  · simp [r, plan, SetupVeth, h0, h1, h2, h3, h4, h5, setupPlan]
  rcases e6 with _ | x6
  swap
  · simp [r, plan, SetupVeth, h0, h1, h2, h3, h4, h5, h6, setupPlan]
  rcases hostRes with _ | hv
  · simp [r, plan, SetupVeth, h0, h1, h2, h3, h4, h5, h6, setupPlan]
  simp only [Option.getD_some] at h7
  rcases e7 with _ | x7
  · simp [r, plan, SetupVeth, h0, h1, h2, h3, h4, h5, h6, h7, setupPlan]
  · simp [r, plan, SetupVeth, h0, h1, h2, h3, h4, h5, h6, h7, setupPlan]

/-- C10, on a concrete host: the successful attachment of `eth0` makes the eight calls in
order and leaves the host with the pod attached. -/
theorem SetupVeth_order_witness :
    (SetupVeth Kernel.linkLayer hostNS bridgedHost podNS br0 1500 "eth0" podNet gatewayIP).ret
      = none ∧
    (SetupVeth Kernel.linkLayer hostNS bridgedHost podNS br0 1500 "eth0" podNet
      gatewayIP).state = attachedHost ∧
    (SetupVeth Kernel.linkLayer hostNS bridgedHost podNS br0 1500 "eth0" podNet
      gatewayIP).trace =
      setupPlan hostNS podNS br0 1500 "eth0" podNet gatewayIP ⟨"veth1a2b3c4d"⟩ ⟨"eth0"⟩
        (some eth0Link) (some hostLink) hostLink none none none none none none none none :=
  (SetupVeth_order Kernel.linkLayer hostNS bridgedHost podNS br0 1500 "eth0" podNet
    gatewayIP none none none none none none none none ⟨"veth1a2b3c4d"⟩ ⟨"eth0"⟩
    (some eth0Link) (some hostLink) afterVeth afterAddr afterUp afterRoute attachedHost
    (by decide) (by decide) (by decide) (by decide) (by decide) (by decide) (by decide)
    (by decide)).2.2.2.2.2.2.2.2.1 rfl rfl rfl rfl rfl rfl rfl (by decide) rfl

end Claims

end Bridge
